import Mathlib

/-!
# Foresight-radar: verification of the authorization model and edge handlers

Shallow embedding of the parts of the repository that the specification's
testable properties talk about:

* the SQL schema's row-level-security (RLS) helper functions
  `is_workspace_member` and `get_workspace_role`, and the policies on
  `workspaces`, `members`, `sources`, `signals`, `trends`, `megatrends`
  and `jobs` (initial migration, embedded in the workspace context part);
* the `create_workspace_with_owner` plpgsql function
  (migration 20260104135823);
* the `summarize-signal` edge function: request validation, prompt
  construction and the sanitization of the provider's JSON payload;
* the client-side gates in `SignalCollector.handleAnalyze`,
  `WorkspaceProvider.createWorkspace` and
  `OnboardingWizard.handleCreateWorkspace`.

Postgres policy semantics used throughout: permissive policies for the same
command are OR-ed; a `FOR ALL` policy with only a `USING` clause applies that
clause to the existing row for SELECT/UPDATE/DELETE and, as its implicit
`WITH CHECK`, to the incoming row for INSERT/UPDATE; SQL `=` against a NULL
`auth.uid()` is never true; `x IN (...)` is false when `x` is NULL.
-/

namespace ForesightRadar

/-- JavaScript `s.trim()`: strip whitespace from both ends (JS trims the
Unicode whitespace class; the ASCII `Char.isWhitespace` subset covers every
string these handlers compare). -/
def jsTrim (s : String) : String :=
  String.mk
    (((s.data.dropWhile (fun c => c.isWhitespace)).reverse.dropWhile
        (fun c => c.isWhitespace)).reverse)

/-- JavaScript `s.toLowerCase()` (ASCII case mapping). -/
def jsToLower (s : String) : String :=
  String.mk (s.data.map Char.toLower)

/-- JavaScript `s.substring(0, n)`: the first `n` characters of `s` (all of
`s` when it is shorter). -/
def jsSubstring0 (s : String) (n : Nat) : String :=
  String.mk (s.data.take n)

/-- The `app_role` enum from the schema. -/
inductive Role where
  | owner
  | admin
  | member
  | viewer
deriving DecidableEq, Repr

/-- A row of `public.members`: only the columns the policies and functions
consult (`workspace_id`, `user_id`, `role`); ids are modelled as naturals. -/
structure MemberRow where
  workspace_id : Nat
  user_id : Nat
  role : Role
deriving DecidableEq, Repr

/-- A row of `public.workspaces`, restricted to the columns that the claims
and policies consult. -/
structure WorkspaceRow where
  id : Nat
  name : String
deriving DecidableEq, Repr

/-- A row of `public.signals`, restricted to the columns the RLS policies
read (`id` appears in the `signal_trend` policies, `workspace_id` in the
signal policies themselves). -/
structure SignalRow where
  id : Nat
  workspace_id : Nat
deriving DecidableEq, Repr

/-- A row of `public.trends`, restricted to the columns the RLS policies
read. -/
structure TrendRow where
  id : Nat
  workspace_id : Nat
deriving DecidableEq, Repr

/-- A row of `public.megatrends`, restricted to the columns the RLS policies
read. -/
structure MegatrendRow where
  id : Nat
  workspace_id : Nat
deriving DecidableEq, Repr

/-- A row of `public.sources`, restricted to the columns the RLS policies
read. -/
structure SourceRow where
  id : Nat
  workspace_id : Nat
deriving DecidableEq, Repr

/-- A row of `public.jobs`, restricted to the columns the RLS policies
read. -/
structure JobRow where
  id : Nat
  workspace_id : Nat
deriving DecidableEq, Repr

/-- Database state for the authorization model: the `workspaces` and
`members` tables (the tables the policy functions query), and the id
allocator standing in for `gen_random_uuid()` freshness. -/
structure DBState where
  nextId : Nat
  workspaces : List WorkspaceRow
  members : List MemberRow
deriving DecidableEq, Repr

/-- SQL function `public.is_workspace_member(workspace_uuid)`:
`EXISTS (SELECT 1 FROM members WHERE workspace_id = workspace_uuid AND
user_id = auth.uid())`.  `uid` is `auth.uid()`, `none` when the caller is
unauthenticated; SQL equality against NULL never holds. -/
def is_workspace_member (s : DBState) (uid : Option Nat) (w : Nat) : Bool :=
  s.members.any (fun m => m.workspace_id == w && some m.user_id == uid)

/-- SQL function `public.get_workspace_role(workspace_uuid)`:
`SELECT role FROM members WHERE workspace_id = workspace_uuid AND
user_id = auth.uid()`.  The `UNIQUE(workspace_id, user_id)` constraint makes
the matching row unique; `find?` returns it (or `none`, the SQL NULL). -/
def get_workspace_role (s : DBState) (uid : Option Nat) (w : Nat) : Option Role :=
  (s.members.find? (fun m => m.workspace_id == w && some m.user_id == uid)).map
    (fun m => m.role)

/-- SQL `r IN (r1, ..., rn)` on the result of `get_workspace_role`: false
when the role is NULL (no member row). -/
def roleIn (r : Option Role) (rs : List Role) : Bool :=
  match r with
  | none => false
  | some r => rs.contains r

/-- The `workspaces` SELECT policy "Users can view workspaces they belong to":
`USING (public.is_workspace_member(id))`. -/
def workspaces_select_allowed (s : DBState) (uid : Option Nat) (row : WorkspaceRow) : Bool :=
  is_workspace_member s uid row.id

/-- The `members` INSERT check: OR of the applicable permissive policies —
"Owners and admins can manage members" (`FOR ALL USING
(get_workspace_role(workspace_id) IN ('owner','admin'))`, whose USING doubles
as its WITH CHECK) and "Users can insert themselves as owner when creating
workspace" (`WITH CHECK (user_id = auth.uid())`). -/
def members_insert_allowed (s : DBState) (uid : Option Nat) (row : MemberRow) : Bool :=
  roleIn (get_workspace_role s uid row.workspace_id) [Role.owner, Role.admin]
    || some row.user_id == uid

/-- Policy "Members can manage sources" (`FOR ALL`):
`USING (get_workspace_role(workspace_id) IN ('owner','admin','member'))`,
gating INSERT/UPDATE/DELETE on `sources` (no other mutation policy exists). -/
def sources_manage (s : DBState) (uid : Option Nat) (w : Nat) : Bool :=
  roleIn (get_workspace_role s uid w) [Role.owner, Role.admin, Role.member]

/-- Policy "Members can manage signals" (`FOR ALL`) on `signals`. -/
def signals_manage (s : DBState) (uid : Option Nat) (w : Nat) : Bool :=
  roleIn (get_workspace_role s uid w) [Role.owner, Role.admin, Role.member]

/-- Policy "Members can manage trends" (`FOR ALL`) on `trends`. -/
def trends_manage (s : DBState) (uid : Option Nat) (w : Nat) : Bool :=
  roleIn (get_workspace_role s uid w) [Role.owner, Role.admin, Role.member]

/-- Policy "Members can manage megatrends" (`FOR ALL`) on `megatrends`. -/
def megatrends_manage (s : DBState) (uid : Option Nat) (w : Nat) : Bool :=
  roleIn (get_workspace_role s uid w) [Role.owner, Role.admin, Role.member]

/-- Policy "Members can manage jobs" (`FOR ALL`) on `jobs`. -/
def jobs_manage (s : DBState) (uid : Option Nat) (w : Nat) : Bool :=
  roleIn (get_workspace_role s uid w) [Role.owner, Role.admin, Role.member]

/-- SELECT on `signals`: OR of "Users can view signals in their workspaces"
(`USING (is_workspace_member(workspace_id))`) and the USING clause of the
`FOR ALL` "Members can manage signals" policy, which also applies to
SELECT. -/
def signals_select_allowed (s : DBState) (uid : Option Nat) (row : SignalRow) : Bool :=
  is_workspace_member s uid row.workspace_id || signals_manage s uid row.workspace_id

/-- SELECT on `trends` (view policy OR-ed with the manage policy's USING). -/
def trends_select_allowed (s : DBState) (uid : Option Nat) (row : TrendRow) : Bool :=
  is_workspace_member s uid row.workspace_id || trends_manage s uid row.workspace_id

/-- SELECT on `megatrends` (view policy OR-ed with the manage policy's
USING). -/
def megatrends_select_allowed (s : DBState) (uid : Option Nat) (row : MegatrendRow) : Bool :=
  is_workspace_member s uid row.workspace_id || megatrends_manage s uid row.workspace_id

/-- SELECT on `sources` (view policy OR-ed with the manage policy's USING). -/
def sources_select_allowed (s : DBState) (uid : Option Nat) (row : SourceRow) : Bool :=
  is_workspace_member s uid row.workspace_id || sources_manage s uid row.workspace_id

/-- SELECT on `jobs` (view policy OR-ed with the manage policy's USING). -/
def jobs_select_allowed (s : DBState) (uid : Option Nat) (row : JobRow) : Bool :=
  is_workspace_member s uid row.workspace_id || jobs_manage s uid row.workspace_id

/-- UPDATE on `signals`: the `FOR ALL` policy's USING is checked on the
existing row and, as the implicit WITH CHECK, on the updated row; both
consult the row's `workspace_id`. -/
def signals_update_allowed (s : DBState) (uid : Option Nat) (old new : SignalRow) : Bool :=
  signals_manage s uid old.workspace_id && signals_manage s uid new.workspace_id

/-- UPDATE on `trends`, same shape as `signals_update_allowed`. -/
def trends_update_allowed (s : DBState) (uid : Option Nat) (old new : TrendRow) : Bool :=
  trends_manage s uid old.workspace_id && trends_manage s uid new.workspace_id

/-- UPDATE on `megatrends`, same shape as `signals_update_allowed`. -/
def megatrends_update_allowed (s : DBState) (uid : Option Nat) (old new : MegatrendRow) : Bool :=
  megatrends_manage s uid old.workspace_id && megatrends_manage s uid new.workspace_id

/-- UPDATE on `sources`, same shape as `signals_update_allowed`. -/
def sources_update_allowed (s : DBState) (uid : Option Nat) (old new : SourceRow) : Bool :=
  sources_manage s uid old.workspace_id && sources_manage s uid new.workspace_id

/-- UPDATE on `jobs`, same shape as `signals_update_allowed`. -/
def jobs_update_allowed (s : DBState) (uid : Option Nat) (old new : JobRow) : Bool :=
  jobs_manage s uid old.workspace_id && jobs_manage s uid new.workspace_id

/-- Deleting the membership of user `u` in workspace `w` (the
`UNIQUE(workspace_id, user_id)` constraint means at most one row matches). -/
def removeMember (s : DBState) (w u : Nat) : DBState :=
  { s with members := s.members.filter (fun m => !(m.workspace_id == w && m.user_id == u)) }

/-- SQL function `public.create_workspace_with_owner(workspace_name)`: inside one plpgsql
call (hence one transaction) inserts a `workspaces` row and then inserts the
caller as its `owner` member.  When `auth.uid()` is NULL the member insert
violates `members.user_id NOT NULL`, the exception aborts the function, and
the workspace insert is rolled back with it, so the call returns no id and
leaves the database unchanged.  `gen_random_uuid()` freshness is modelled by
the `nextId` counter. -/
def create_workspace_with_owner (s : DBState) (uid : Option Nat)
    (workspace_name : String) : Option Nat × DBState :=
  match uid with
  | none => (none, s)
  | some u =>
    (some s.nextId,
      { nextId := s.nextId + 1
        workspaces := ⟨s.nextId, workspace_name⟩ :: s.workspaces
        members := ⟨s.nextId, u, Role.owner⟩ :: s.members })

/-- Client function `WorkspaceProvider.createWorkspace`: returns null
without touching the backend when there is no session user, otherwise calls
the `create_workspace_with_owner` RPC with the given name. -/
def createWorkspaceClient (user : Option Nat) (name : String) (s : DBState) :
    Option Nat × DBState :=
  match user with
  | none => (none, s)
  | some u => create_workspace_with_owner s (some u) name

/-- Client handler `OnboardingWizard.handleCreateWorkspace`: refuses to submit when the
trimmed workspace name is empty, otherwise calls `createWorkspace` with the
trimmed name. -/
def onboardingCreateWorkspace (user : Option Nat) (workspaceName : String)
    (s : DBState) : Option (Option Nat × DBState) :=
  if jsTrim workspaceName = "" then none
  else some (createWorkspaceClient user (jsTrim workspaceName) s)

/-! ## summarize-signal edge function

The provider's reply is `JSON.parse`d and then sanitized field by field.
JSON values (the image of `JSON.parse`) are modelled by `Json`; JavaScript
numbers by `ℚ` (JSON literals are finite decimals, and the handler only
clamps and compares them).  An absent object property is `Option.none`. -/

/-- A JSON value as produced by `JSON.parse`: null, booleans, finite
numbers, strings, arrays, and plain objects (no object on this code path is
inspected beyond `String`/`Number` coercion, so `obj` carries no fields). -/
inductive Json where
  | null
  | bool (b : Bool)
  | num (q : ℚ)
  | str (s : String)
  | arr (xs : List Json)
  | obj

/-- JavaScript truthiness of a `JSON.parse` value: null, `false`, `0` and
`""` are falsy; arrays and objects are always truthy. -/
def jsTruthy : Json → Bool
  | .null => false
  | .bool b => b
  | .num q => !(q == 0)
  | .str s => !(s == "")
  | .arr _ => true
  | .obj => true

/-- JavaScript `String(q)` for a number: integers render without a decimal
part; non-integer rendering is approximated by the rational `num/den` form
(no property proved here depends on it). -/
def jsNumToString (q : ℚ) : String :=
  if q.den = 1 then toString q.num else toString q.num ++ "/" ++ toString q.den

mutual

/-- JavaScript `String(x)` on a `JSON.parse` value.  Arrays stringify by joining their
elements with "," where a null element contributes the empty string; plain
objects stringify to "[object Object]". -/
def jsToString : Json → String
  | .null => "null"
  | .bool b => cond b "true" "false"
  | .num q => jsNumToString q
  | .str s => s
  | .obj => "[object Object]"
  | .arr xs => String.intercalate "," (jsArrElemStrings xs)

/-- The element strings of `Array.prototype.join`: null elements contribute
the empty string, every other element its `String` form. -/
def jsArrElemStrings : List Json → List String
  | [] => []
  | .null :: rest => "" :: jsArrElemStrings rest
  | j :: rest => jsToString j :: jsArrElemStrings rest

end

/-- Digit run to its value. -/
def digitsToNat (cs : List Char) : Nat :=
  cs.foldl (fun n c => n * 10 + (c.toNat - Char.toNat '0')) 0

/-- Unsigned decimal literal (`digits`, `digits.digits`, `.digits`) to its
value; anything else is NaN (`none`).  The hex/exponent forms of JS numeric
strings are not modelled and also map to `none`. -/
def parseUnsignedDecimal (cs : List Char) : Option ℚ :=
  let intPart := cs.takeWhile (fun c => c.isDigit)
  let rest := cs.dropWhile (fun c => c.isDigit)
  match rest with
  | [] => if intPart.isEmpty then none else some (digitsToNat intPart : ℚ)
  | '.' :: fracRest =>
    let frac := fracRest.takeWhile (fun c => c.isDigit)
    let rest2 := fracRest.dropWhile (fun c => c.isDigit)
    if rest2.isEmpty && !(intPart.isEmpty && frac.isEmpty) then
      some ((digitsToNat intPart : ℚ) + (digitsToNat frac : ℚ) / ((10 : ℚ) ^ frac.length))
    else none
  | _ => none

/-- JavaScript `Number(s)` for a string: whitespace-only is 0, a signed decimal literal
is its value, anything else is NaN (`none`). -/
def jsStringToNumber (s : String) : Option ℚ :=
  let t := jsTrim s
  if t = "" then some 0
  else
    match t.data with
    | '+' :: rest => parseUnsignedDecimal rest
    | '-' :: rest => (parseUnsignedDecimal rest).map (fun q => -q)
    | cs => parseUnsignedDecimal cs

/-- JavaScript `Number(x)` on a possibly-missing `JSON.parse` value; `none` in the
result models NaN.  `Number(undefined)` is NaN, `Number(null)` is 0,
booleans map to 0/1, arrays coerce through their string form, and plain
objects are NaN. -/
def jsToNumber : Option Json → Option ℚ
  | none => none
  | some .null => some 0
  | some (.bool b) => some (cond b 1 0)
  | some (.num q) => some q
  | some (.str s) => jsStringToNumber s
  | some (.arr xs) => jsStringToNumber (jsToString (.arr xs))
  | some .obj => none

/-- The parsed provider payload: each field of the expected schema as the
(possibly missing) JSON value found at that key. -/
structure ParsedResponse where
  summary : Option Json
  takeaways : Option Json
  tags : Option Json
  relevance : Option Json
  horizon : Option Json
  certainty : Option Json

/-- The sanitized `SummarizeResponse` the handler returns. -/
structure SummarizeResponse where
  summary : String
  takeaways : List String
  tags : List String
  relevance : ℚ
  horizon : String
  certainty : String
deriving DecidableEq, Repr

/-- JavaScript `String(x || "")`: the string form of a truthy value, else `""`. -/
def jsOrEmptyString (o : Option Json) : String :=
  match o with
  | some j => if jsTruthy j then jsToString j else ""
  | none => ""

/-- Takeaways sanitization: `Array.isArray(t) ? t.slice(0, 3).map(String)` with the three default strings otherwise. -/
def sanitizeTakeaways (o : Option Json) : List String :=
  match o with
  | some (.arr xs) => (xs.take 3).map jsToString
  | _ => ["Key insight 1", "Key insight 2", "Key insight 3"]

/-- JavaScript `replace(/\s+/g, "-")`: each maximal run of whitespace becomes one
hyphen.  The accumulator records whether the previous character was
whitespace (i.e. the run is already represented). -/
def collapseWsAux : Bool → List Char → List Char
  | _, [] => []
  | prevWs, c :: rest =>
    if c.isWhitespace then
      (if prevWs then [] else ['-']) ++ collapseWsAux true rest
    else
      c :: collapseWsAux false rest

/-- JavaScript `s.replace(/\s+/g, "-")` on a string. -/
def jsReplaceWsWithHyphen (s : String) : String :=
  String.mk (collapseWsAux false s.data)

/-- One tag: `String(t).toLowerCase().replace(/\s+/g, "-")`. -/
def sanitizeTag (j : Json) : String :=
  jsReplaceWsWithHyphen (jsToLower (jsToString j))

/-- Tags sanitization: `Array.isArray(t) ? t.slice(0, 6).map(...)` with the single default tag "unclassified" otherwise. -/
def sanitizeTags (o : Option Json) : List String :=
  match o with
  | some (.arr xs) => (xs.take 6).map sanitizeTag
  | _ => ["unclassified"]

/-- Relevance sanitization `Math.min(100, Math.max(0, Number(parsed.relevance) || 50))`: the `|| 50`
replaces NaN — and also the falsy number 0 — with the default before the
clamp. -/
def sanitizeRelevance (o : Option Json) : ℚ :=
  let n : ℚ :=
    match jsToNumber o with
    | none => 50
    | some q => if q = 0 then 50 else q
  min 100 (max 0 n)

/-- Horizon sanitization `["0_5","5_10","10_plus"].includes(h) ? h : "5_10"`; `includes` uses
strict equality, so only a string field can match. -/
def sanitizeHorizon (o : Option Json) : String :=
  match o with
  | some (.str s) => if ["0_5", "5_10", "10_plus"].contains s then s else "5_10"
  | _ => "5_10"

/-- Certainty sanitization `["certain","uncertain","wildcard"].includes(c) ? c : "uncertain"`. -/
def sanitizeCertainty (o : Option Json) : String :=
  match o with
  | some (.str s) => if ["certain", "uncertain", "wildcard"].contains s then s else "uncertain"
  | _ => "uncertain"

/-- The "Validate and sanitize response" block of `summarize-signal`. -/
def sanitizeResponse (p : ParsedResponse) : SummarizeResponse :=
  { summary := jsSubstring0 (jsOrEmptyString p.summary) 1200
    takeaways := sanitizeTakeaways p.takeaways
    tags := sanitizeTags p.tags
    relevance := sanitizeRelevance p.relevance
    horizon := sanitizeHorizon p.horizon
    certainty := sanitizeCertainty p.certainty }

/-- The constant system prompt of `summarize-signal`. -/
def systemPromptText : String :=
  "You are a strategic foresight analyst. Your task is to analyze content and extract key insights for trend analysis.\n\nYou MUST respond with valid JSON matching this exact schema:\n\x7b\n  \"summary\": \"string (max 150 words, concise summary of the key points)\",\n  \"takeaways\": [\"string\", \"string\", \"string\"] (exactly 3 bullet-point takeaways),\n  \"tags\": [\"kebab-case-tag\"] (2-6 lowercase kebab-case tags describing themes),\n  \"relevance\": number (0-100, how relevant this is for strategic foresight),\n  \"horizon\": \"0_5\" | \"5_10\" | \"10_plus\" (time horizon: 0-5 years, 5-10 years, or 10+ years),\n  \"certainty\": \"certain\" | \"uncertain\" | \"wildcard\" (how certain is this development)\n\x7d\n\nGuidelines:\n- Summary should be in the same language as the source content\n- Tags should be in English and lowercase kebab-case (e.g., \"artificial-intelligence\", \"sustainability\")\n- Relevance considers strategic importance, disruptiveness, and scope of impact\n- Horizon considers when this trend will have significant impact\n- Certainty: \"certain\" for established trends, \"uncertain\" for emerging patterns, \"wildcard\" for speculative developments"

/-- Truthiness of an optional string (`undefined` and `""` are falsy). -/
def jsStrOptTruthy (o : Option String) : Bool :=
  match o with
  | none => false
  | some s => !(s == "")

/-- The user prompt template of `summarize-signal`: optional title and URL
lines, then the content truncated to its first 8000 characters
(`content.substring(0, 8000)`). -/
def buildUserPrompt (content : String) (title url : Option String) : String :=
  "Analyze this content for strategic foresight:\n\n"
    ++ (match title with
        | some t => if t == "" then "" else "Title: " ++ t ++ "\n"
        | none => "")
    ++ (match url with
        | some u => if u == "" then "" else "Source URL: " ++ u ++ "\n"
        | none => "")
    ++ "\nContent:\n"
    ++ jsSubstring0 content 8000
    ++ "\n\nRespond with JSON only, no additional text."

/-- The request body `summarize-signal` posts to the LLM gateway. -/
structure ProviderRequest where
  model : String
  systemPrompt : String
  userPrompt : String
  temperature : ℚ
  maxTokens : Nat
deriving DecidableEq, Repr

/-- How far the `summarize-signal` handler gets before any network call:
either an early rejection (status, error message) or the provider request it
is about to send. -/
inductive ServeOutcome where
  | reject (status : Nat) (error : String)
  | callProvider (req : ProviderRequest)
deriving DecidableEq, Repr

/-- The pre-provider part of the `summarize-signal` handler: rejects missing
or whitespace-only content ("Content is required", 400), then a missing API
key ("AI service not configured", 500), and otherwise issues the provider
request built from the supplied fields. -/
def summarizeRequestStep (content : Option String) (title url : Option String)
    (apiKeyConfigured : Bool) : ServeOutcome :=
  if !(jsStrOptTruthy content) || jsTrim (content.getD "") = "" then
    .reject 400 "Content is required"
  else if !apiKeyConfigured then
    .reject 500 "AI service not configured"
  else
    .callProvider
      { model := "google/gemini-2.5-flash"
        systemPrompt := systemPromptText
        userPrompt := buildUserPrompt (content.getD "") title url
        temperature := 0
        maxTokens := 1000 }

/-- The validation in `SignalCollector.handleAnalyze` before it invokes the
`summarize-signal` function: empty trimmed content is rejected with the
"Content required" toast, trimmed content under 100 characters with the
"Content too short" toast; `none` means the invocation proceeds. -/
def handleAnalyzeGate (content : String) : Option String :=
  if jsTrim content = "" then some "Content required"
  else if (jsTrim content).length < 100 then some "Content too short"
  else none

/-! ## Helper lemmas about the membership predicates -/

/-- Membership characterization: `is_workspace_member` is true exactly when a
`members` row for the pair exists. -/
lemma is_workspace_member_iff (s : DBState) (u w : Nat) :
    is_workspace_member s (some u) w = true ↔
      ∃ m, m ∈ s.members ∧ m.workspace_id = w ∧ m.user_id = u := by
  simp [is_workspace_member, List.any_eq_true, Bool.and_eq_true, beq_iff_eq]

/-- A caller with any role in a workspace is a member of it. -/
lemma is_workspace_member_of_role (s : DBState) (uid : Option Nat) (w : Nat) (r : Role)
    (h : get_workspace_role s uid w = some r) : is_workspace_member s uid w = true := by
  unfold get_workspace_role at h
  cases hf : s.members.find? (fun m => m.workspace_id == w && some m.user_id == uid) with
  | none => rw [hf] at h; simp at h
  | some m =>
    have hmem : m ∈ s.members := List.mem_of_find?_eq_some hf
    have hp := List.find?_some hf
    exact List.any_eq_true.mpr ⟨m, hmem, hp⟩

/-- A caller whose role passes any `IN`-list test is a member. -/
lemma roleIn_imp_member (s : DBState) (uid : Option Nat) (w : Nat) (rs : List Role)
    (h : roleIn (get_workspace_role s uid w) rs = true) :
    is_workspace_member s uid w = true := by
  cases hg : get_workspace_role s uid w with
  | none => rw [hg] at h; simp [roleIn] at h
  | some r => exact is_workspace_member_of_role s uid w r hg

/-- OR-ing a role-based manage policy onto the membership view policy does
not widen SELECT access: the disjunction collapses to membership. -/
lemma member_or_roleIn (s : DBState) (uid : Option Nat) (w : Nat) (rs : List Role) :
    (is_workspace_member s uid w || roleIn (get_workspace_role s uid w) rs) =
      is_workspace_member s uid w := by
  cases hm : is_workspace_member s uid w with
  | true => simp
  | false =>
    simp only [Bool.false_or]
    cases hr : roleIn (get_workspace_role s uid w) rs with
    | false => rfl
    | true =>
      have := roleIn_imp_member s uid w rs hr
      rw [this] at hm
      exact hm

/-- After the `members` row of `(w, u)` is deleted, `is_workspace_member` is
false for `u` on `w`. -/
lemma not_member_after_remove (s : DBState) (w u : Nat) :
    is_workspace_member (removeMember s w u) (some u) w = false := by
  unfold is_workspace_member removeMember
  cases hq : (s.members.filter (fun m => !(m.workspace_id == w && m.user_id == u))).any
      (fun m => m.workspace_id == w && some m.user_id == some u) with
  | false => rfl
  | true =>
    exfalso
    obtain ⟨m, hm, hp⟩ := List.any_eq_true.mp hq
    obtain ⟨_, hkeep⟩ := List.mem_filter.mp hm
    simp only [Bool.and_eq_true, beq_iff_eq, Option.some.injEq] at hp
    simp [hp.1, hp.2] at hkeep

/-- The test `role IN ('owner','admin','member')` succeeds exactly for a present,
non-viewer role. -/
lemma roleIn_content_iff (r : Option Role) :
    roleIn r [Role.owner, Role.admin, Role.member] = true ↔
      ∃ x, r = some x ∧ x ≠ Role.viewer := by
  cases r with
  | none => simp [roleIn]
  | some x => cases x <;> simp [roleIn]

/-! ## Claims -/

/-- C1: the spec says a Member row may be inserted only by an owner/admin of
the workspace, with self-insert as owner allowed during workspace creation
only.  The `members` INSERT policies actually permit identity 2 — not a
member of workspace 1 at all, with no workspace creation in progress — to
insert itself into workspace 1, and even with role `admin`: the policy named
"Users can insert themselves as owner when creating workspace" only checks
`user_id = auth.uid()`, contradicting its own name. -/
theorem C1_members_self_insert_policy_hole :
    members_insert_allowed ⟨2, [⟨1, "W1"⟩], [⟨1, 1, Role.owner⟩]⟩ (some 2)
        ⟨1, 2, Role.admin⟩ = true
      ∧ get_workspace_role ⟨2, [⟨1, "W1"⟩], [⟨1, 1, Role.owner⟩]⟩ (some 2) 1 = none
      ∧ is_workspace_member ⟨2, [⟨1, "W1"⟩], [⟨1, 1, Role.owner⟩]⟩ (some 2) 1 = false := by
  decide

/-- C2: a user can read a row scoped to workspace `w` — in `workspaces`,
`signals`, `trends`, `megatrends`, `sources` and `jobs` — exactly when a
`members` row for `(w, u)` exists: `is_workspace_member` is true iff such a
row exists, every SELECT policy on those tables evaluates to exactly
membership, and after that member row is deleted the membership test and all
six SELECT policies are false. -/
theorem C2_read_iff_member (s : DBState) (u w : Nat) :
    (is_workspace_member s (some u) w = true ↔
      ∃ m, m ∈ s.members ∧ m.workspace_id = w ∧ m.user_id = u)
    ∧ (∀ row : WorkspaceRow, row.id = w →
        workspaces_select_allowed s (some u) row = is_workspace_member s (some u) w)
    ∧ (∀ row : SignalRow, row.workspace_id = w →
        signals_select_allowed s (some u) row = is_workspace_member s (some u) w)
    ∧ (∀ row : TrendRow, row.workspace_id = w →
        trends_select_allowed s (some u) row = is_workspace_member s (some u) w)
    ∧ (∀ row : MegatrendRow, row.workspace_id = w →
        megatrends_select_allowed s (some u) row = is_workspace_member s (some u) w)
    ∧ (∀ row : SourceRow, row.workspace_id = w →
        sources_select_allowed s (some u) row = is_workspace_member s (some u) w)
    ∧ (∀ row : JobRow, row.workspace_id = w →
        jobs_select_allowed s (some u) row = is_workspace_member s (some u) w)
    ∧ is_workspace_member (removeMember s w u) (some u) w = false
    ∧ (∀ row : WorkspaceRow, row.id = w →
        workspaces_select_allowed (removeMember s w u) (some u) row = false)
    ∧ (∀ row : SignalRow, row.workspace_id = w →
        signals_select_allowed (removeMember s w u) (some u) row = false)
    ∧ (∀ row : TrendRow, row.workspace_id = w →
        trends_select_allowed (removeMember s w u) (some u) row = false)
    ∧ (∀ row : MegatrendRow, row.workspace_id = w →
        megatrends_select_allowed (removeMember s w u) (some u) row = false)
    ∧ (∀ row : SourceRow, row.workspace_id = w →
        sources_select_allowed (removeMember s w u) (some u) row = false)
    ∧ (∀ row : JobRow, row.workspace_id = w →
        jobs_select_allowed (removeMember s w u) (some u) row = false) := by
  have hrm := not_member_after_remove s w u
  refine ⟨is_workspace_member_iff s u w, ?_, ?_, ?_, ?_, ?_, ?_, hrm, ?_, ?_, ?_, ?_, ?_, ?_⟩
  · intro row hr; rw [workspaces_select_allowed, hr]
  · intro row hr
    rw [signals_select_allowed, signals_manage, member_or_roleIn, hr]
  · intro row hr
    rw [trends_select_allowed, trends_manage, member_or_roleIn, hr]
  · intro row hr
    rw [megatrends_select_allowed, megatrends_manage, member_or_roleIn, hr]
  · intro row hr
    rw [sources_select_allowed, sources_manage, member_or_roleIn, hr]
  · intro row hr
    rw [jobs_select_allowed, jobs_manage, member_or_roleIn, hr]
  · intro row hr; rw [workspaces_select_allowed, hr, hrm]
  · intro row hr
    rw [signals_select_allowed, signals_manage, member_or_roleIn, hr, hrm]
  · intro row hr
    rw [trends_select_allowed, trends_manage, member_or_roleIn, hr, hrm]
  · intro row hr
    rw [megatrends_select_allowed, megatrends_manage, member_or_roleIn, hr, hrm]
  · intro row hr
    rw [sources_select_allowed, sources_manage, member_or_roleIn, hr, hrm]
  · intro row hr
    rw [jobs_select_allowed, jobs_manage, member_or_roleIn, hr, hrm]

/-- Witness for C2 at a concrete state: user 3 is a viewer member of
workspace 1, and the signals SELECT policy evaluates to the membership
test. -/
theorem C2_read_iff_member_witness :
    signals_select_allowed ⟨2, [⟨1, "W"⟩], [⟨1, 3, Role.viewer⟩]⟩ (some 3) ⟨9, 1⟩ =
      is_workspace_member ⟨2, [⟨1, "W"⟩], [⟨1, 3, Role.viewer⟩]⟩ (some 3) 1 :=
  (C2_read_iff_member ⟨2, [⟨1, "W"⟩], [⟨1, 3, Role.viewer⟩]⟩ 3 1).2.2.1 ⟨9, 1⟩ rfl

/-- C3: `create_workspace_with_owner` is all-or-nothing.  With no
authenticated identity it returns no id and leaves the state unchanged (the
owner insert fails and rolls the workspace insert back); with identity `u`
it returns a fresh workspace id, and afterwards exactly one workspace row
(named as requested) and exactly one member row — role `owner`, user `u` —
carry that id. -/
theorem C3_create_workspace_atomic (s : DBState) (u : Nat) (name : String)
    (hw : ∀ w ∈ s.workspaces, w.id < s.nextId)
    (hm : ∀ m ∈ s.members, m.workspace_id < s.nextId) :
    create_workspace_with_owner s none name = (none, s)
    ∧ (create_workspace_with_owner s (some u) name).1 = some s.nextId
    ∧ (create_workspace_with_owner s (some u) name).2.workspaces.filter
        (fun w => w.id == s.nextId) = [⟨s.nextId, name⟩]
    ∧ (create_workspace_with_owner s (some u) name).2.members.filter
        (fun m => m.workspace_id == s.nextId) = [⟨s.nextId, u, Role.owner⟩] := by
  refine ⟨rfl, rfl, ?_, ?_⟩
  · have h2 : s.workspaces.filter (fun w => w.id == s.nextId) = [] := by
      rw [List.filter_eq_nil_iff]
      intro w hmem
      simp [Nat.ne_of_lt (hw w hmem)]
    show List.filter (fun w => w.id == s.nextId)
        (⟨s.nextId, name⟩ :: s.workspaces) = [⟨s.nextId, name⟩]
    simp [List.filter_cons, h2]
  · have h2 : s.members.filter (fun m => m.workspace_id == s.nextId) = [] := by
      rw [List.filter_eq_nil_iff]
      intro m hmem
      simp [Nat.ne_of_lt (hm m hmem)]
    show List.filter (fun m => m.workspace_id == s.nextId)
        (⟨s.nextId, u, Role.owner⟩ :: s.members) = [⟨s.nextId, u, Role.owner⟩]
    simp [List.filter_cons, h2]

/-- Witness for C3 on the empty database: user 7 creating "Acme". -/
theorem C3_create_workspace_atomic_witness :
    create_workspace_with_owner ⟨0, [], []⟩ none "Acme" = (none, ⟨0, [], []⟩)
    ∧ (create_workspace_with_owner ⟨0, [], []⟩ (some 7) "Acme").1 = some 0
    ∧ (create_workspace_with_owner ⟨0, [], []⟩ (some 7) "Acme").2.workspaces.filter
        (fun w => w.id == 0) = [⟨0, "Acme"⟩]
    ∧ (create_workspace_with_owner ⟨0, [], []⟩ (some 7) "Acme").2.members.filter
        (fun m => m.workspace_id == 0) = [⟨0, 7, Role.owner⟩] :=
  C3_create_workspace_atomic ⟨0, [], []⟩ 7 "Acme" (by simp) (by simp)

/-- C4: a `viewer` member of workspace `w` can read every `signals`,
`trends`, `megatrends`, `sources` and `jobs` row of `w`, while the manage
policies — the only policies governing INSERT/UPDATE/DELETE on those tables
— all evaluate to false for the viewer, so every mutation is rejected. -/
theorem C4_viewer_read_only (s : DBState) (u w : Nat)
    (h : get_workspace_role s (some u) w = some Role.viewer) :
    is_workspace_member s (some u) w = true
    ∧ (∀ row : SignalRow, row.workspace_id = w →
        signals_select_allowed s (some u) row = true)
    ∧ (∀ row : TrendRow, row.workspace_id = w →
        trends_select_allowed s (some u) row = true)
    ∧ (∀ row : MegatrendRow, row.workspace_id = w →
        megatrends_select_allowed s (some u) row = true)
    ∧ (∀ row : SourceRow, row.workspace_id = w →
        sources_select_allowed s (some u) row = true)
    ∧ (∀ row : JobRow, row.workspace_id = w →
        jobs_select_allowed s (some u) row = true)
    ∧ signals_manage s (some u) w = false
    ∧ trends_manage s (some u) w = false
    ∧ megatrends_manage s (some u) w = false
    ∧ sources_manage s (some u) w = false
    ∧ jobs_manage s (some u) w = false := by
  have hmem : is_workspace_member s (some u) w = true :=
    is_workspace_member_of_role s (some u) w Role.viewer h
  have hman : roleIn (get_workspace_role s (some u) w)
      [Role.owner, Role.admin, Role.member] = false := by
    rw [h]; rfl
  refine ⟨hmem, ?_, ?_, ?_, ?_, ?_, hman, hman, hman, hman, hman⟩
  · intro row hr
    rw [signals_select_allowed, signals_manage, member_or_roleIn, hr, hmem]
  · intro row hr
    rw [trends_select_allowed, trends_manage, member_or_roleIn, hr, hmem]
  · intro row hr
    rw [megatrends_select_allowed, megatrends_manage, member_or_roleIn, hr, hmem]
  · intro row hr
    rw [sources_select_allowed, sources_manage, member_or_roleIn, hr, hmem]
  · intro row hr
    rw [jobs_select_allowed, jobs_manage, member_or_roleIn, hr, hmem]

/-- Witness for C4: user 4 is a viewer of workspace 1 — a member who can
read a signal of workspace 1 but whose signal-manage policy is false. -/
theorem C4_viewer_read_only_witness :
    is_workspace_member ⟨2, [⟨1, "W"⟩], [⟨1, 4, Role.viewer⟩]⟩ (some 4) 1 = true
    ∧ signals_select_allowed ⟨2, [⟨1, "W"⟩], [⟨1, 4, Role.viewer⟩]⟩ (some 4) ⟨9, 1⟩ = true
    ∧ signals_manage ⟨2, [⟨1, "W"⟩], [⟨1, 4, Role.viewer⟩]⟩ (some 4) 1 = false := by
  have h := C4_viewer_read_only ⟨2, [⟨1, "W"⟩], [⟨1, 4, Role.viewer⟩]⟩ 4 1 (by decide)
  exact ⟨h.1, h.2.1 ⟨9, 1⟩ rfl, h.2.2.2.2.2.2.1⟩

/-- C5 counterexample: the spec says a row's `workspace_id` never changes
after creation, but the signals UPDATE check permits user 1 — a `member` of
both workspace 1 and workspace 2 — to update signal 5 from workspace 1 to
workspace 2. -/
theorem C5_workspace_move_counterexample :
    signals_update_allowed
        ⟨3, [⟨1, "W1"⟩, ⟨2, "W2"⟩], [⟨1, 1, Role.member⟩, ⟨2, 1, Role.member⟩]⟩
        (some 1) ⟨5, 1⟩ ⟨5, 2⟩ = true
    ∧ (SignalRow.mk 5 1).workspace_id ≠ (SignalRow.mk 5 2).workspace_id := by
  decide

/-- C5 as amended: the policies do not make `workspace_id` immutable — an
update is permitted exactly when the acting identity holds a non-viewer role
in the old row's workspace and in the new row's workspace, so a row can be
moved across workspaces precisely by a user holding role
owner/admin/member in both (this holds for each of signals, trends,
megatrends, sources and jobs). -/
theorem C5_update_requires_content_role_both_sides (s : DBState) (uid : Option Nat) :
    (∀ r0 r1 : SignalRow, signals_update_allowed s uid r0 r1 = true ↔
      ((∃ x, get_workspace_role s uid r0.workspace_id = some x ∧ x ≠ Role.viewer)
        ∧ (∃ x, get_workspace_role s uid r1.workspace_id = some x ∧ x ≠ Role.viewer)))
    ∧ (∀ r0 r1 : TrendRow, trends_update_allowed s uid r0 r1 = true ↔
      ((∃ x, get_workspace_role s uid r0.workspace_id = some x ∧ x ≠ Role.viewer)
        ∧ (∃ x, get_workspace_role s uid r1.workspace_id = some x ∧ x ≠ Role.viewer)))
    ∧ (∀ r0 r1 : MegatrendRow, megatrends_update_allowed s uid r0 r1 = true ↔
      ((∃ x, get_workspace_role s uid r0.workspace_id = some x ∧ x ≠ Role.viewer)
        ∧ (∃ x, get_workspace_role s uid r1.workspace_id = some x ∧ x ≠ Role.viewer)))
    ∧ (∀ r0 r1 : SourceRow, sources_update_allowed s uid r0 r1 = true ↔
      ((∃ x, get_workspace_role s uid r0.workspace_id = some x ∧ x ≠ Role.viewer)
        ∧ (∃ x, get_workspace_role s uid r1.workspace_id = some x ∧ x ≠ Role.viewer)))
    ∧ (∀ r0 r1 : JobRow, jobs_update_allowed s uid r0 r1 = true ↔
      ((∃ x, get_workspace_role s uid r0.workspace_id = some x ∧ x ≠ Role.viewer)
        ∧ (∃ x, get_workspace_role s uid r1.workspace_id = some x ∧ x ≠ Role.viewer))) := by
  refine ⟨fun r0 r1 => ?_, fun r0 r1 => ?_, fun r0 r1 => ?_, fun r0 r1 => ?_,
    fun r0 r1 => ?_⟩
  · rw [signals_update_allowed, Bool.and_eq_true, signals_manage, signals_manage,
      roleIn_content_iff, roleIn_content_iff]
  · rw [trends_update_allowed, Bool.and_eq_true, trends_manage, trends_manage,
      roleIn_content_iff, roleIn_content_iff]
  · rw [megatrends_update_allowed, Bool.and_eq_true, megatrends_manage, megatrends_manage,
      roleIn_content_iff, roleIn_content_iff]
  · rw [sources_update_allowed, Bool.and_eq_true, sources_manage, sources_manage,
      roleIn_content_iff, roleIn_content_iff]
  · rw [jobs_update_allowed, Bool.and_eq_true, jobs_manage, jobs_manage,
      roleIn_content_iff, roleIn_content_iff]

/-- Witness for C5 at a concrete state: an owner of workspaces 1 and 2 may
run a trend update moving a row from workspace 1 to workspace 2. -/
theorem C5_update_requires_content_role_both_sides_witness :
    trends_update_allowed ⟨3, [⟨1, "A"⟩, ⟨2, "B"⟩], [⟨1, 9, Role.owner⟩, ⟨2, 9, Role.admin⟩]⟩
      (some 9) ⟨4, 1⟩ ⟨4, 2⟩ = true := by
  have h := (C5_update_requires_content_role_both_sides
    ⟨3, [⟨1, "A"⟩, ⟨2, "B"⟩], [⟨1, 9, Role.owner⟩, ⟨2, 9, Role.admin⟩]⟩ (some 9)).2.1
    ⟨4, 1⟩ ⟨4, 2⟩
  exact h.mpr ⟨⟨Role.owner, by decide, by decide⟩, ⟨Role.admin, by decide, by decide⟩⟩

/-- A 50-character content (below the 100-character minimum the spec
requires the summarize entry point to reject). -/
def shortContent : String := String.mk (List.replicate 50 'a')

/-- C6 counterexample: the `summarize-signal` handler itself has no
100-character check — a 50-character content passes its validation and the
handler proceeds to the provider call instead of rejecting. -/
theorem C6_short_content_reaches_provider :
    (match summarizeRequestStep (some shortContent) none none true with
      | ServeOutcome.callProvider _ => true
      | ServeOutcome.reject _ _ => false) = true
    ∧ shortContent.length < 100 := by
  decide

/-- C6 as amended: the under-100-characters rejection lives in the client
(`SignalCollector.handleAnalyze`), which refuses to invoke the entry point
for any content whose trimmed length is below 100 — with the "Content too
short" condition whenever the trimmed content is non-empty (and "Content
required" when it is empty); the entry point itself rejects only
missing/whitespace-only content. -/
theorem C6_client_gate_rejects_short (c : String)
    (h : (jsTrim c).length < 100) :
    handleAnalyzeGate c ≠ none
    ∧ (jsTrim c ≠ "" → handleAnalyzeGate c = some "Content too short")
    ∧ (jsTrim c = "" → handleAnalyzeGate c = some "Content required") := by
  unfold handleAnalyzeGate
  by_cases h0 : jsTrim c = ""
  · rw [if_pos h0]
    exact ⟨by simp, fun hne => absurd h0 hne, fun _ => rfl⟩
  · rw [if_neg h0, if_pos h]
    exact ⟨by simp, fun _ => rfl, fun he => absurd he h0⟩

/-- Witness for C6: the 4-character content "tiny" is rejected by the client
gate with "Content too short". -/
theorem C6_client_gate_rejects_short_witness :
    handleAnalyzeGate "tiny" = some "Content too short" := by
  have h := C6_client_gate_rejects_short "tiny" (by decide)
  exact h.2.1 (by decide)

/-- C7 counterexample: the sanitized result does not always have exactly 3
takeaways and 2–6 tags.  A payload whose `takeaways` and `tags` are empty
arrays yields 0 takeaways and 0 tags, and a payload missing `tags`
altogether yields the single default tag "unclassified" (length 1, below the
claimed minimum of 2). -/
theorem C7_sanitize_counts_counterexample :
    (sanitizeResponse ⟨none, some (Json.arr []), some (Json.arr []), none, none,
        none⟩).takeaways.length = 0
    ∧ (sanitizeResponse ⟨none, some (Json.arr []), some (Json.arr []), none, none,
        none⟩).tags.length = 0
    ∧ (sanitizeResponse ⟨none, none, none, none, none, none⟩).tags = ["unclassified"] := by
  decide

/-- No character of `collapseWsAux`'s output is whitespace: source
characters kept are non-whitespace and runs are replaced by a hyphen. -/
lemma collapseWsAux_no_ws (l : List Char) :
    ∀ b : Bool, ∀ c ∈ collapseWsAux b l, c.isWhitespace = false := by
  induction l with
  | nil => intro b c hc; simp [collapseWsAux] at hc
  | cons hd tl ih =>
    intro b c hc
    by_cases hw : hd.isWhitespace
    · rw [collapseWsAux, if_pos hw] at hc
      rcases List.mem_append.mp hc with h1 | h2
      · cases b with
        | true => simp at h1
        | false =>
          simp at h1
          rw [h1]; decide
      · exact ih true c h2
    · rw [collapseWsAux, if_neg hw] at hc
      rcases List.mem_cons.mp hc with h1 | h2
      · rw [h1]
        exact Bool.not_eq_true _ ▸ eq_false_of_ne_true hw
      · exact ih false c h2

/-- C7 as amended: for every provider payload the sanitized result has a
summary of at most 1200 characters, at most 3 takeaways (exactly the three
defaults when `takeaways` is not an array, and `min 3 n` elements when it is
an array of length `n`), at most 6 tags each free of whitespace (hyphenated
in place of whitespace runs), a relevance clamped into [0, 100], a horizon
in the three-value enum, and a certainty in the three-value enum. -/
theorem C7_sanitize_bounds (p : ParsedResponse) :
    (sanitizeResponse p).summary.length ≤ 1200
    ∧ (sanitizeResponse p).takeaways.length ≤ 3
    ∧ (match p.takeaways with
        | some (Json.arr xs) => (sanitizeResponse p).takeaways.length = min 3 xs.length
        | _ => (sanitizeResponse p).takeaways =
            ["Key insight 1", "Key insight 2", "Key insight 3"])
    ∧ (sanitizeResponse p).tags.length ≤ 6
    ∧ (∀ t ∈ (sanitizeResponse p).tags, ∀ c ∈ t.data, c.isWhitespace = false)
    ∧ 0 ≤ (sanitizeResponse p).relevance
    ∧ (sanitizeResponse p).relevance ≤ 100
    ∧ (sanitizeResponse p).horizon ∈ (["0_5", "5_10", "10_plus"] : List String)
    ∧ (sanitizeResponse p).certainty ∈ (["certain", "uncertain", "wildcard"] : List String) := by
  refine ⟨?_, ?_, ?_, ?_, ?_, ?_, ?_, ?_, ?_⟩
  · show (jsSubstring0 (jsOrEmptyString p.summary) 1200).length ≤ 1200
    show ((jsOrEmptyString p.summary).data.take 1200).length ≤ 1200
    exact List.length_take_le 1200 _
  · show (sanitizeTakeaways p.takeaways).length ≤ 3
    unfold sanitizeTakeaways
    cases hp : p.takeaways with
    | none => simp
    | some j => cases j <;> simp
  · cases hp : p.takeaways with
    | none => simp [sanitizeResponse, sanitizeTakeaways, hp]
    | some j =>
      cases j <;>
        simp [sanitizeResponse, sanitizeTakeaways, hp, List.length_take, Nat.min_comm]
  · show (sanitizeTags p.tags).length ≤ 6
    unfold sanitizeTags
    cases hp : p.tags with
    | none => simp
    | some j => cases j <;> simp
  · intro t ht c hc
    revert ht
    show t ∈ sanitizeTags p.tags → _
    unfold sanitizeTags
    cases hp : p.tags with
    | none =>
      intro ht
      simp only [List.mem_singleton] at ht
      subst ht
      revert hc; revert c; decide
    | some j =>
      cases j with
      | arr xs =>
        intro ht
        obtain ⟨j0, _, hj0⟩ := List.mem_map.mp ht
        have : t.data = collapseWsAux false (jsToLower (jsToString j0)).data := by
          rw [← hj0]; rfl
        rw [this] at hc
        exact collapseWsAux_no_ws _ false c hc
      | null =>
        intro ht
        simp only [List.mem_singleton] at ht
        subst ht
        revert hc; revert c; decide
      | bool b =>
        intro ht
        simp only [List.mem_singleton] at ht
        subst ht
        revert hc; revert c; decide
      | num q =>
        intro ht
        simp only [List.mem_singleton] at ht
        subst ht
        revert hc; revert c; decide
      | str s =>
        intro ht
        simp only [List.mem_singleton] at ht
        subst ht
        revert hc; revert c; decide
      | obj =>
        intro ht
        simp only [List.mem_singleton] at ht
        subst ht
        revert hc; revert c; decide
  · show (0 : ℚ) ≤ sanitizeRelevance p.relevance
    unfold sanitizeRelevance
    exact le_min (by norm_num) (le_max_left 0 _)
  · show sanitizeRelevance p.relevance ≤ (100 : ℚ)
    unfold sanitizeRelevance
    exact min_le_left _ _
  · show sanitizeHorizon p.horizon ∈ (["0_5", "5_10", "10_plus"] : List String)
    unfold sanitizeHorizon
    cases hp : p.horizon with
    | none => decide
    | some j =>
      cases j with
      | str s =>
        show (if (["0_5", "5_10", "10_plus"] : List String).contains s = true then s
            else "5_10") ∈ (["0_5", "5_10", "10_plus"] : List String)
        by_cases hc : (["0_5", "5_10", "10_plus"] : List String).contains s = true
        · rw [if_pos hc]
          have := hc
          simp at this
          rcases this with h1 | h1 | h1 <;> simp [h1]
        · rw [if_neg hc]; decide
      | null => show ("5_10" : String) ∈ (["0_5", "5_10", "10_plus"] : List String); decide
      | bool b => show ("5_10" : String) ∈ (["0_5", "5_10", "10_plus"] : List String); decide
      | num q => show ("5_10" : String) ∈ (["0_5", "5_10", "10_plus"] : List String); decide
      | arr xs => show ("5_10" : String) ∈ (["0_5", "5_10", "10_plus"] : List String); decide
      | obj => show ("5_10" : String) ∈ (["0_5", "5_10", "10_plus"] : List String); decide
  · show sanitizeCertainty p.certainty ∈ (["certain", "uncertain", "wildcard"] : List String)
    unfold sanitizeCertainty
    cases hp : p.certainty with
    | none => decide
    | some j =>
      cases j with
      | str s =>
        show (if (["certain", "uncertain", "wildcard"] : List String).contains s = true then s
            else "uncertain") ∈ (["certain", "uncertain", "wildcard"] : List String)
        by_cases hc : (["certain", "uncertain", "wildcard"] : List String).contains s = true
        · rw [if_pos hc]
          have := hc
          simp at this
          rcases this with h1 | h1 | h1 <;> simp [h1]
        · rw [if_neg hc]; decide
      | null =>
        show ("uncertain" : String) ∈ (["certain", "uncertain", "wildcard"] : List String)
        decide
      | bool b =>
        show ("uncertain" : String) ∈ (["certain", "uncertain", "wildcard"] : List String)
        decide
      | num q =>
        show ("uncertain" : String) ∈ (["certain", "uncertain", "wildcard"] : List String)
        decide
      | arr xs =>
        show ("uncertain" : String) ∈ (["certain", "uncertain", "wildcard"] : List String)
        decide
      | obj =>
        show ("uncertain" : String) ∈ (["certain", "uncertain", "wildcard"] : List String)
        decide

/-- Witness for C7 at the all-missing payload: the defaults are the three
takeaway strings, the default horizon, and a relevance within bounds. -/
theorem C7_sanitize_bounds_witness :
    (sanitizeResponse ⟨none, none, none, none, none, none⟩).takeaways =
      ["Key insight 1", "Key insight 2", "Key insight 3"]
    ∧ (sanitizeResponse ⟨none, none, none, none, none, none⟩).relevance ≤ 100
    ∧ (sanitizeResponse ⟨none, none, none, none, none, none⟩).horizon ∈
        (["0_5", "5_10", "10_plus"] : List String) := by
  have h := C7_sanitize_bounds ⟨none, none, none, none, none, none⟩
  exact ⟨h.2.2.1, h.2.2.2.2.2.2.1, h.2.2.2.2.2.2.2.1⟩

/-- C8: the `|| 50` in the relevance sanitization treats the valid payload
relevance 0 as missing: `Math.min(100, Math.max(0, Number(0) || 50))`
evaluates to the default 50 instead of keeping the valid value 0, while a
nonzero valid value such as 30 is kept. -/
theorem C8_relevance_zero_replaced_by_default :
    (sanitizeResponse ⟨none, none, none, some (Json.num 0), none, none⟩).relevance = 50
    ∧ (sanitizeResponse ⟨none, none, none, some (Json.num 30), none, none⟩).relevance = 30
    ∧ (sanitizeResponse ⟨none, none, none, some (Json.num 130), none, none⟩).relevance = 100 := by
  decide

/-- C9 counterexample: the empty workspace name is not rejected by the
creation entry point — `create_workspace_with_owner` called with name `""`
by authenticated user 1 returns a workspace id and a Workspace row with an
empty name exists afterwards (and the client `createWorkspace` passes the
empty name straight through). -/
theorem C9_empty_name_workspace_created :
    (create_workspace_with_owner ⟨0, [], []⟩ (some 1) "").1 = some 0
    ∧ (create_workspace_with_owner ⟨0, [], []⟩ (some 1) "").2.workspaces = [⟨0, ""⟩]
    ∧ createWorkspaceClient (some 1) "" ⟨0, [], []⟩ =
        (some 0, ⟨1, [⟨0, ""⟩], [⟨0, 1, Role.owner⟩]⟩) := by
  decide

/-- C9 as amended: an absent identity is rejected before any insert — the
client `createWorkspace` returns null without calling the RPC, and the SQL
function run with a NULL `auth.uid()` aborts leaving the state unchanged;
the empty-name rejection, however, exists only in the onboarding form, which
refuses to submit a name that trims to empty — the creation entry point
itself accepts the empty name. -/
theorem C9_creation_guards (name : String) (s : DBState) (user : Option Nat) :
    createWorkspaceClient none name s = (none, s)
    ∧ create_workspace_with_owner s none name = (none, s)
    ∧ (jsTrim name = "" → onboardingCreateWorkspace user name s = none) := by
  refine ⟨rfl, rfl, fun h => ?_⟩
  unfold onboardingCreateWorkspace
  rw [if_pos h]

/-- Witness for C9: with no session user the client returns null and the
state is untouched, and a whitespace-only name never reaches
`createWorkspace` from the onboarding form. -/
theorem C9_creation_guards_witness :
    createWorkspaceClient none "Acme" ⟨0, [], []⟩ = (none, ⟨0, [], []⟩)
    ∧ onboardingCreateWorkspace (some 1) "   " ⟨0, [], []⟩ = none := by
  have h := C9_creation_guards "Acme" ⟨0, [], []⟩ (some 1)
  have h2 := C9_creation_guards "   " ⟨0, [], []⟩ (some 1)
  exact ⟨h.1, h2.2.2 (by decide)⟩

/-- C10: the user prompt embeds `content.substring(0, 8000)`, so two
summarize requests whose contents agree on their first 8000 characters (and
share title and url) build the same prompt, and whenever both reach the
provider call they issue identical provider requests — the analysis cannot
depend on content beyond index 8000. -/
theorem C10_provider_request_first_8000_only (c1 c2 : String)
    (title url : Option String) (keyCfg : Bool)
    (h : jsSubstring0 c1 8000 = jsSubstring0 c2 8000) :
    buildUserPrompt c1 title url = buildUserPrompt c2 title url
    ∧ (∀ r1 r2 : ProviderRequest,
        summarizeRequestStep (some c1) title url keyCfg = ServeOutcome.callProvider r1 →
        summarizeRequestStep (some c2) title url keyCfg = ServeOutcome.callProvider r2 →
        r1 = r2) := by
  have hbp : buildUserPrompt c1 title url = buildUserPrompt c2 title url := by
    unfold buildUserPrompt
    rw [h]
  refine ⟨hbp, fun r1 r2 h1 h2 => ?_⟩
  unfold summarizeRequestStep at h1 h2
  split at h1
  · cases h1
  · split at h1
    · cases h1
    · split at h2
      · cases h2
      · cases h1
        cases h2
        simp only [Option.getD_some]
        rw [hbp]

/-- Witness for C10: with equal contents the hypothesis holds trivially and
both provider requests coincide. -/
theorem C10_provider_request_first_8000_only_witness :
    buildUserPrompt "hello world" none none = buildUserPrompt "hello world" none none :=
  (C10_provider_request_first_8000_only "hello world" "hello world"
    none none true rfl).1

end ForesightRadar
